import Mathlib

/-
Verification of the pattern-lecture example code of the design-patterns
repository.  Each lecture's Python classes are shallowly embedded: methods
that only read attributes become pure functions, attribute mutation becomes
explicit state passing, and object identity (where a claim depends on it)
is modelled by a heap, a list of attribute records indexed by object id,
where allocation appends.  Numeric literals of the examples become exact
rationals.
-/

namespace DesignPatterns

/-! ## List helpers (heap reads and writes) -/

/-- Reads a heap cell: `l.getD p d` with an explicit default. -/
def objRead {α : Type} (l : List α) (p : Nat) (d : α) : α := l.getD p d

/-! ## Prototype lecture

`ProductPrototype` has attributes `name` and `price` set by `__init__`, and
`clone` returns `deepcopy(self)`.  Object identity matters to the claims, so
the live objects form a heap: a list of attribute records, the index being
the object's identity; `deepcopy` allocates a fresh object with the same
attribute values. -/

namespace Prototype

/-- Attribute record of a `ProductPrototype` object: `self.name`, `self.price`. -/
structure ProductPrototype where
  name : String
  price : ℚ
deriving DecidableEq

/-- Default record used for out-of-range heap reads; never hit under the
validity hypotheses of the theorems. -/
def dflt : ProductPrototype := ⟨"", 0⟩

/-- Attributes of object `p` on heap `h`. -/
def objAt (h : List ProductPrototype) (p : Nat) : ProductPrototype :=
  objRead h p dflt

/-- `ProductPrototype.clone`: `deepcopy(self)` allocates a fresh object whose
attribute values equal the source's; the result is the new heap together with
the identity of the new object. -/
def clone (h : List ProductPrototype) (p : Nat) :
    List ProductPrototype × Nat :=
  (h ++ [objAt h p], h.length)

/-- Attribute assignment `obj.name = v` on object `p`. -/
def setName (h : List ProductPrototype) (p : Nat) (v : String) :
    List ProductPrototype :=
  h.set p { objAt h p with name := v }

/-- Attribute assignment `obj.price = r` on object `p`. -/
def setPrice (h : List ProductPrototype) (p : Nat) (r : ℚ) :
    List ProductPrototype :=
  h.set p { objAt h p with price := r }

end Prototype

/-! ## Factory Method lecture

`Employee` subclasses `FullTimeEmployee`, `PartTimeEmployee`, `Contractor`
store `name` and `salary`; `calculate_bonus` reads `self.salary` only, so its
embedding returns the bonus together with the (unchanged) post-state of
`self`.  `HRManager.make_employee` and `Recruiter.make_employee` are the two
factory methods. -/

namespace Factory

/-- An `Employee` object, tagged by its concrete class, with the attributes
`name` and `salary` set by `Employee.__init__`. -/
inductive Employee where
  | fullTime (name : String) (salary : ℚ)
  | partTime (name : String) (salary : ℚ)
  | contractor (name : String) (salary : ℚ)
deriving DecidableEq

/-- Attribute `self.name`. -/
def Employee.name : Employee → String
  | .fullTime n _ => n
  | .partTime n _ => n
  | .contractor n _ => n

/-- Attribute `self.salary`. -/
def Employee.salary : Employee → ℚ
  | .fullTime _ s => s
  | .partTime _ s => s
  | .contractor _ s => s

/-- `calculate_bonus`: full-time employees get 10 percent, part-time 5
percent, contractors nothing.  The second component is the post-state of
`self` (the method only reads `self.salary`). -/
def calculate_bonus : Employee → ℚ × Employee
  | .fullTime n s => (s * (1 / 10), .fullTime n s)
  | .partTime n s => (s * (5 / 100), .partTime n s)
  | .contractor n s => (0, .contractor n s)

/-- `type_name` of each concrete `Employee` class. -/
def type_name : Employee → String
  | .fullTime _ _ => "FullTimeEmployee"
  | .partTime _ _ => "PartTimeEmployee"
  | .contractor _ _ => "Contractor"

/-- Class-membership test used to state the factory claims. -/
def Employee.isFullTime : Employee → Bool
  | .fullTime _ _ => true
  | _ => false

/-- Class-membership test used to state the factory claims. -/
def Employee.isPartTime : Employee → Bool
  | .partTime _ _ => true
  | _ => false

/-- Class-membership test used to state the factory claims. -/
def Employee.isContractor : Employee → Bool
  | .contractor _ _ => true
  | _ => false

/-- `HRManager.make_employee`: always a `FullTimeEmployee`. -/
def hrManagerMakeEmployee (name : String) (salary : ℚ) : Employee :=
  .fullTime name salary

/-- `Recruiter.make_employee`: a `PartTimeEmployee` when `salary < 50000`,
otherwise a `Contractor`. -/
def recruiterMakeEmployee (name : String) (salary : ℚ) : Employee :=
  if salary < 50000 then .partTime name salary else .contractor name salary

/-- The hiring demo of the lecture: the three employees and their bonuses. -/
def employee1 : Employee := hrManagerMakeEmployee "John" 60000

/-- Second demo employee. -/
def employee2 : Employee := recruiterMakeEmployee "Alice" 40000

/-- Third demo employee. -/
def employee3 : Employee := recruiterMakeEmployee "Bob" 80000

end Factory

/-! ## Decorator lecture

A beverage object is anything exposing `cost()` and `description()`; the
concrete component `Espresso` and the two concrete decorators wrap such an
object.  The decorators hold the wrapped beverage and compute from it without
modifying it, so the embedding is pure. -/

namespace Decorator

/-- A beverage object: the observable results of its `cost()` and
`description()` methods. -/
structure BeverageObj where
  cost : ℚ
  description : String
deriving DecidableEq

/-- The concrete component `Espresso`: cost `1.99`, description
`"Espresso"`. -/
def espresso : BeverageObj := ⟨199 / 100, "Espresso"⟩

/-- `MilkDecorator`: cost of the wrapped beverage plus `0.50`, description
with `", Milk"` appended. -/
def milkDecorator (b : BeverageObj) : BeverageObj :=
  ⟨b.cost + 1 / 2, b.description ++ ", Milk"⟩

/-- `MochaDecorator`: cost of the wrapped beverage plus `0.75`, description
with `", Mocha"` appended. -/
def mochaDecorator (b : BeverageObj) : BeverageObj :=
  ⟨b.cost + 3 / 4, b.description ++ ", Mocha"⟩

end Decorator

/-! ## Singleton lecture

`Logger.__new__` checks the class variable `Logger._instance`: when it is
`None` it allocates a fresh object via `super().__new__(cls)` and stores it,
otherwise it returns the stored object.  The class-level state is the stored
optional instance id together with the number of objects allocated so far
(allocation hands out consecutive ids). -/

namespace Singleton

/-- Class-level state of `Logger`: `Logger._instance` as an optional object id,
and the number of `Logger` objects ever allocated. -/
structure LoggerClassState where
  inst : Option Nat
  allocated : Nat
deriving DecidableEq

/-- The state before any `Logger()` call: `_instance = None`, nothing
allocated. -/
def loggerInit : LoggerClassState := ⟨none, 0⟩

/-- `Logger.__new__`: allocate and store a fresh instance when `_instance` is
`None`, otherwise return the stored instance.  Result: new class state and the
id of the returned object. -/
def loggerNew : LoggerClassState → LoggerClassState × Nat
  | ⟨none, k⟩ => (⟨some k, k + 1⟩, k)
  | ⟨some i, k⟩ => (⟨some i, k⟩, i)

/-- Class state after `n` evaluations of `Logger()` starting from the initial
state. -/
def loggerStateAfter : Nat → LoggerClassState
  | 0 => loggerInit
  | n + 1 => (loggerNew (loggerStateAfter n)).1

end Singleton

/-! ## Composite lecture

`File` and `Directory` implement `FileSystemComponent`; a directory holds a
list of child components in insertion order, and `show_details` prints its
own header line followed by each child's output.  The printed lines are the
value of the embedding. -/

namespace Composite

/-- A file-system component: a `File` leaf with a name, or a `Directory` with
a name and its children in the order they were added. -/
inductive FileSystemComponent where
  | file (name : String)
  | dir (name : String) (components : List FileSystemComponent)

/-- `show_details`: the lines printed by the method, in order.  A file prints
one `File:` line; a directory prints its `Directory:` line and then each
child's lines in child order. -/
def show_details : FileSystemComponent → List String
  | .file n => ["File: " ++ n]
  | .dir n cs =>
      ("Directory: " ++ n) :: (cs.attach.map (fun c => show_details c.1)).flatten
decreasing_by
  have h := List.sizeOf_lt_of_mem c.2
  simp only [FileSystemComponent.dir.sizeOf_spec]
  omega

/-- `list.remove(c)` as invoked by `Directory.remove`: scan the children for
the first one equal to `c` (object identity for these components, modelled by
ids); remove it, or raise `ValueError` (`Except.error`) having changed
nothing. -/
def listRemove : List Nat → Nat → Except Unit (List Nat)
  | [], _ => .error ()
  | x :: xs, c =>
      if x = c then .ok xs else (listRemove xs c).map (fun l => x :: l)

/-- The demo tree: root contains home and file3.txt, home contains user, user
contains file1.txt and file2.txt. -/
def demoTree : FileSystemComponent :=
  .dir "root"
    [.dir "home" [.dir "user" [.file "file1.txt", .file "file2.txt"]],
     .file "file3.txt"]

end Composite

/-! ## Proxy lecture

`RealVideo.__init__` stores the filename and immediately loads the video
(printing the loading line); `VideoProxy` stores the filename and
`_real_video = None`, and `play` constructs the `RealVideo` on first use.
Methods return their printed lines alongside the new state. -/

namespace Proxy

/-- A `RealVideo` object: its `filename` attribute. -/
structure RealVideo where
  filename : String
deriving DecidableEq

/-- `RealVideo.__init__`: stores the filename and calls `_load_video`; the
second component is the printed output. -/
def realVideoInit (f : String) : RealVideo × List String :=
  (⟨f⟩, ["RealVideo: Loading video " ++ f])

/-- `RealVideo.play`: prints the playing line. -/
def realVideoPlay (v : RealVideo) : List String :=
  ["RealVideo: Playing video " ++ v.filename]

/-- A `VideoProxy` object: its `filename` and `_real_video` attributes. -/
structure VideoProxy where
  filename : String
  realVideo : Option RealVideo
deriving DecidableEq

/-- `VideoProxy.__init__`: stores the filename, `_real_video = None`. -/
def videoProxyInit (f : String) : VideoProxy := ⟨f, none⟩

/-- `VideoProxy.play`: constructs the `RealVideo` when `_real_video` is still
`None`, then delegates to its `play`.  Result: post-state and printed
lines. -/
def videoProxyPlay : VideoProxy → VideoProxy × List String
  | ⟨f, none⟩ =>
      let r := realVideoInit f
      (⟨f, some r.1⟩, r.2 ++ realVideoPlay r.1)
  | ⟨f, some v⟩ => (⟨f, some v⟩, realVideoPlay v)

/-- Proxy state and accumulated output after `n` successive `play()` calls on
a fresh `VideoProxy` for `f`. -/
def proxyPlayN (f : String) : Nat → VideoProxy × List String
  | 0 => (videoProxyInit f, [])
  | n + 1 =>
      let s := proxyPlayN f n
      let r := videoProxyPlay s.1
      (r.1, s.2 ++ r.2)

/-- The loading line printed by `_load_video` for filename `f`. -/
def loadLine (f : String) : String := "RealVideo: Loading video " ++ f

end Proxy

/-! ## Builder lecture

`Builder.__init__` creates one `Product`; the `build_part` methods mutate
that same product in place and `get_product` returns it (by reference).
`MealBuilder` holds one `Builder`, so both meal preparations operate on the
one shared product.  Products live on a heap indexed by object id. -/

namespace Builder

/-- Attribute record of a `Product` object: `part1`, `part2`, `part3`
(initialised to `None`). -/
structure Product where
  part1 : Option String
  part2 : Option String
  part3 : Option String
deriving DecidableEq

/-- Fresh product as created by `Product.__init__`. -/
def productInit : Product := ⟨none, none, none⟩

/-- A `Builder` object: the id of the product it created in `__init__`. -/
structure BuilderObj where
  productId : Nat
deriving DecidableEq

/-- `Builder.__init__`: allocates one fresh `Product` on the heap. -/
def builderInit (h : List Product) : List Product × BuilderObj :=
  (h ++ [productInit], ⟨h.length⟩)

/-- `Builder.build_part1`: mutates `self.product.part1` in place. -/
def build_part1 (h : List Product) (b : BuilderObj) (s : String) :
    List Product :=
  h.set b.productId { objRead h b.productId productInit with part1 := some s }

/-- `Builder.build_part2`: mutates `self.product.part2` in place. -/
def build_part2 (h : List Product) (b : BuilderObj) (s : String) :
    List Product :=
  h.set b.productId { objRead h b.productId productInit with part2 := some s }

/-- `Builder.build_part3`: mutates `self.product.part3` in place. -/
def build_part3 (h : List Product) (b : BuilderObj) (s : String) :
    List Product :=
  h.set b.productId { objRead h b.productId productInit with part3 := some s }

/-- `Builder.get_product`: returns `self.product`, i.e. a reference to the one
product the builder created. -/
def get_product (b : BuilderObj) : Nat := b.productId

/-- A `MealBuilder` object: the `Builder` created in its `__init__`. -/
structure MealBuilder where
  builder : BuilderObj
deriving DecidableEq

/-- `MealBuilder.__init__`: creates the single underlying `Builder`. -/
def mealBuilderInit (h : List Product) : List Product × MealBuilder :=
  let r := builderInit h
  (r.1, ⟨r.2⟩)

/-- `MealBuilder.prepare_veg_meal`: builds the three veg parts and returns the
builder's product. -/
def prepare_veg_meal (h : List Product) (m : MealBuilder) :
    List Product × Nat :=
  let h1 := build_part1 h m.builder "Salad"
  let h2 := build_part2 h1 m.builder "Vegetable Curry"
  let h3 := build_part3 h2 m.builder "Rice"
  (h3, get_product m.builder)

/-- `MealBuilder.prepare_non_veg_meal`: builds the three non-veg parts and
returns the builder's product. -/
def prepare_non_veg_meal (h : List Product) (m : MealBuilder) :
    List Product × Nat :=
  let h1 := build_part1 h m.builder "Chicken Soup"
  let h2 := build_part2 h1 m.builder "Grilled Chicken"
  let h3 := build_part3 h2 m.builder "Chicken Tikka"
  (h3, get_product m.builder)

/-- The demo run: a fresh `MealBuilder`, then `prepare_veg_meal`, then
`prepare_non_veg_meal`.  Result: final heap, the veg meal's id, the non-veg
meal's id. -/
def builderDemo : List Product × Nat × Nat :=
  let i := mealBuilderInit []
  let v := prepare_veg_meal i.1 i.2
  let nv := prepare_non_veg_meal v.1 i.2
  (nv.1, v.2, nv.2)

end Builder

/-! ## Heap-read lemmas -/

theorem objRead_concat_length {α : Type} (l : List α) (x d : α) :
    objRead (l ++ [x]) l.length d = x := by
  induction l with
  | nil => rfl
  | cons a t ih => exact ih

theorem objRead_append_lt {α : Type} (l : List α) (x d : α) (p : Nat)
    (hp : p < l.length) : objRead (l ++ [x]) p d = objRead l p d := by
  induction l generalizing p with
  | nil => simp at hp
  | cons a t ih =>
    cases p with
    | zero => rfl
    | succ q =>
      simp only [List.length_cons, Nat.succ_lt_succ_iff] at hp
      simpa [objRead, List.getD] using ih q hp

theorem objRead_set_ne {α : Type} (l : List α) (v d : α) (p q : Nat)
    (hpq : p ≠ q) : objRead (l.set p v) q d = objRead l q d := by
  induction l generalizing p q with
  | nil => rfl
  | cons a t ih =>
    cases p with
    | zero =>
      cases q with
      | zero => exact absurd rfl hpq
      | succ m => rfl
    | succ n =>
      cases q with
      | zero => rfl
      | succ m =>
        simpa [objRead, List.getD, List.set] using ih n m (by omega)

/-! ## Composite lemmas -/

theorem show_details_file_eq (n : String) :
    Composite.show_details (.file n) = ["File: " ++ n] := by
  simp [Composite.show_details]

theorem show_details_dir_eq (n : String)
    (cs : List Composite.FileSystemComponent) :
    Composite.show_details (.dir n cs)
      = ("Directory: " ++ n) :: (cs.map Composite.show_details).flatten := by
  rw [Composite.show_details, List.attach_map_val]

/-! ## Singleton lemmas -/

theorem loggerStateAfter_spec (n : Nat) :
    Singleton.loggerStateAfter n
      = if n = 0 then ⟨none, 0⟩ else ⟨some 0, 1⟩ := by
  induction n with
  | zero => rfl
  | succ m ih =>
    rw [Singleton.loggerStateAfter, ih]
    cases m with
    | zero => rfl
    | succ k => rfl

/-! ## Proxy lemmas -/

theorem playLine_ne_loadLine (f : String) :
    "RealVideo: Playing video " ++ f ≠ Proxy.loadLine f := by
  intro h
  have hd := congrArg String.data h
  simp only [Proxy.loadLine, String.data_append] at hd
  have hpre := List.append_inj_left' hd rfl
  have : ("RealVideo: Playing video ").data ≠ ("RealVideo: Loading video ").data := by
    decide
  exact this hpre

theorem proxyPlayN_state (f : String) :
    ∀ n : Nat, (Proxy.proxyPlayN f (n + 1)).1
      = ⟨f, some ⟨f⟩⟩
  | 0 => rfl
  | n + 1 => by
    have ih := proxyPlayN_state f n
    show (Proxy.videoProxyPlay (Proxy.proxyPlayN f (n + 1)).1).1 = _
    rw [ih]
    rfl

theorem proxyPlayN_count (f : String) :
    ∀ n : Nat, ((Proxy.proxyPlayN f n).2).count (Proxy.loadLine f) = min n 1
  | 0 => rfl
  | 0 + 1 => by
    have hne : "RealVideo: Loading video " ++ f
        ≠ "RealVideo: Playing video " ++ f :=
      fun h => playLine_ne_loadLine f h.symm
    show List.count (Proxy.loadLine f)
        ([] ++ (["RealVideo: Loading video " ++ f]
          ++ ["RealVideo: Playing video " ++ f])) = min 1 1
    simp [Proxy.loadLine, List.count_cons, hne]
  | n + 1 + 1 => by
    have ihc := proxyPlayN_count f (n + 1)
    have ihs := proxyPlayN_state f n
    have hne : "RealVideo: Loading video " ++ f
        ≠ "RealVideo: Playing video " ++ f :=
      fun h => playLine_ne_loadLine f h.symm
    show List.count (Proxy.loadLine f)
        ((Proxy.proxyPlayN f (n + 1)).2
          ++ (Proxy.videoProxyPlay (Proxy.proxyPlayN f (n + 1)).1).2)
        = min (n + 1 + 1) 1
    rw [List.count_append, ihs, ihc]
    have h0 : List.count (Proxy.loadLine f)
        (Proxy.videoProxyPlay ⟨f, some ⟨f⟩⟩).2 = 0 := by
      show List.count (Proxy.loadLine f)
        ["RealVideo: Playing video " ++ f] = 0
      simp [Proxy.loadLine, List.count_cons, hne]
    rw [h0]
    omega

/-! ## Claim theorems -/

/-- C1: for every `ProductPrototype` object constructed with name `n` and
price `r` (its attribute values at the time of cloning), the object returned
by `clone()` has that same name and price, and the call leaves the source
object's own attributes unchanged. -/
theorem clone_copies_attributes (h : List Prototype.ProductPrototype)
    (p : Nat) (hp : p < h.length) :
    (Prototype.objAt (Prototype.clone h p).1 (Prototype.clone h p).2).name
      = (Prototype.objAt h p).name ∧
    (Prototype.objAt (Prototype.clone h p).1 (Prototype.clone h p).2).price
      = (Prototype.objAt h p).price ∧
    Prototype.objAt (Prototype.clone h p).1 p = Prototype.objAt h p := by
  have hc : Prototype.objAt (Prototype.clone h p).1 (Prototype.clone h p).2
      = Prototype.objAt h p :=
    objRead_concat_length h (Prototype.objAt h p) Prototype.dflt
  have hs : Prototype.objAt (Prototype.clone h p).1 p = Prototype.objAt h p :=
    objRead_append_lt h (Prototype.objAt h p) Prototype.dflt p hp
  exact ⟨by rw [hc], by rw [hc], hs⟩

/-- Witness for C1 at the demo object `ProductPrototype("Smartphone", 500)`. -/
theorem clone_copies_attributes_witness :
    0 < ([⟨"Smartphone", 500⟩] : List Prototype.ProductPrototype).length ∧
    ((Prototype.objAt (Prototype.clone [⟨"Smartphone", 500⟩] 0).1
        (Prototype.clone [⟨"Smartphone", 500⟩] 0).2).name
      = (Prototype.objAt [⟨"Smartphone", 500⟩] 0).name ∧
    (Prototype.objAt (Prototype.clone [⟨"Smartphone", 500⟩] 0).1
        (Prototype.clone [⟨"Smartphone", 500⟩] 0).2).price
      = (Prototype.objAt [⟨"Smartphone", 500⟩] 0).price ∧
    Prototype.objAt (Prototype.clone [⟨"Smartphone", 500⟩] 0).1 0
      = Prototype.objAt [⟨"Smartphone", 500⟩] 0) :=
  ⟨by decide, clone_copies_attributes [⟨"Smartphone", 500⟩] 0 (by decide)⟩

/-- C7: the clone is a distinct object from its source, and after the clone,
assigning to either object's `name` or `price` leaves the other object's
attributes unchanged, in both directions. -/
theorem clone_is_independent (h : List Prototype.ProductPrototype) (p : Nat)
    (v : String) (r : ℚ) (hp : p < h.length) :
    (Prototype.clone h p).2 ≠ p ∧
    Prototype.objAt
        (Prototype.setName (Prototype.clone h p).1 (Prototype.clone h p).2 v) p
      = Prototype.objAt h p ∧
    Prototype.objAt
        (Prototype.setPrice (Prototype.clone h p).1 (Prototype.clone h p).2 r) p
      = Prototype.objAt h p ∧
    Prototype.objAt (Prototype.setName (Prototype.clone h p).1 p v)
        (Prototype.clone h p).2
      = Prototype.objAt (Prototype.clone h p).1 (Prototype.clone h p).2 ∧
    Prototype.objAt (Prototype.setPrice (Prototype.clone h p).1 p r)
        (Prototype.clone h p).2
      = Prototype.objAt (Prototype.clone h p).1 (Prototype.clone h p).2 := by
  have hne : h.length ≠ p := Nat.ne_of_gt hp
  refine ⟨hne, ?_, ?_, ?_, ?_⟩
  · rw [show Prototype.objAt
        (Prototype.setName (Prototype.clone h p).1 (Prototype.clone h p).2 v) p
        = objRead (((Prototype.clone h p).1).set h.length
            { Prototype.objAt (Prototype.clone h p).1 h.length with name := v })
            p Prototype.dflt from rfl,
      objRead_set_ne _ _ _ _ _ hne]
    exact objRead_append_lt h (Prototype.objAt h p) Prototype.dflt p hp
  · rw [show Prototype.objAt
        (Prototype.setPrice (Prototype.clone h p).1 (Prototype.clone h p).2 r) p
        = objRead (((Prototype.clone h p).1).set h.length
            { Prototype.objAt (Prototype.clone h p).1 h.length with price := r })
            p Prototype.dflt from rfl,
      objRead_set_ne _ _ _ _ _ hne]
    exact objRead_append_lt h (Prototype.objAt h p) Prototype.dflt p hp
  · exact objRead_set_ne _ _ _ _ _ (Ne.symm hne)
  · exact objRead_set_ne _ _ _ _ _ (Ne.symm hne)

/-- Witness for C7 at the demo object, with a fresh name and price assigned. -/
theorem clone_is_independent_witness :
    0 < ([⟨"Smartphone", 500⟩] : List Prototype.ProductPrototype).length ∧
    ((Prototype.clone [⟨"Smartphone", 500⟩] 0).2 ≠ 0 ∧
    Prototype.objAt
        (Prototype.setName (Prototype.clone [⟨"Smartphone", 500⟩] 0).1
          (Prototype.clone [⟨"Smartphone", 500⟩] 0).2 "Tablet") 0
      = Prototype.objAt [⟨"Smartphone", 500⟩] 0 ∧
    Prototype.objAt
        (Prototype.setPrice (Prototype.clone [⟨"Smartphone", 500⟩] 0).1
          (Prototype.clone [⟨"Smartphone", 500⟩] 0).2 999) 0
      = Prototype.objAt [⟨"Smartphone", 500⟩] 0 ∧
    Prototype.objAt
        (Prototype.setName (Prototype.clone [⟨"Smartphone", 500⟩] 0).1 0 "Tablet")
        (Prototype.clone [⟨"Smartphone", 500⟩] 0).2
      = Prototype.objAt (Prototype.clone [⟨"Smartphone", 500⟩] 0).1
          (Prototype.clone [⟨"Smartphone", 500⟩] 0).2 ∧
    Prototype.objAt
        (Prototype.setPrice (Prototype.clone [⟨"Smartphone", 500⟩] 0).1 0 999)
        (Prototype.clone [⟨"Smartphone", 500⟩] 0).2
      = Prototype.objAt (Prototype.clone [⟨"Smartphone", 500⟩] 0).1
          (Prototype.clone [⟨"Smartphone", 500⟩] 0).2) :=
  ⟨by decide,
    clone_is_independent [⟨"Smartphone", 500⟩] 0 "Tablet" 999 (by decide)⟩

/-- C2: every evaluation of `Logger()` returns the same single instance: any
two calls yield the identical object (so the demo `logger1 is logger2` prints
`True`), and after any number of calls at most one `Logger` object has ever
been allocated. -/
theorem logger_is_singleton (n m : Nat) :
    (Singleton.loggerNew (Singleton.loggerStateAfter n)).2
      = (Singleton.loggerNew (Singleton.loggerStateAfter m)).2 ∧
    (Singleton.loggerStateAfter n).allocated ≤ 1 ∧
    (Singleton.loggerNew (Singleton.loggerStateAfter n)).2 = 0 := by
  have key : ∀ k, (Singleton.loggerNew (Singleton.loggerStateAfter k)).2 = 0 := by
    intro k
    rw [loggerStateAfter_spec k]
    by_cases hk : k = 0 <;> simp [hk, Singleton.loggerNew]
  refine ⟨by rw [key n, key m], ?_, key n⟩
  rw [loggerStateAfter_spec n]
  by_cases hk : n = 0 <;> simp [hk]

/-- C3: `Recruiter.make_employee` returns a `PartTimeEmployee` exactly when
the salary is below 50000 and a `Contractor` otherwise,
`HRManager.make_employee` always returns a `FullTimeEmployee`, and the hiring
demo yields bonus 6000 and type `FullTimeEmployee` for John (salary 60000 via
the HR manager), bonus 2000 and type `PartTimeEmployee` for Alice (salary
40000 via the recruiter), and bonus 0 and type `Contractor` for Bob (salary
80000 via the recruiter). -/
theorem make_employee_cases (n : String) (s : ℚ) :
    (Factory.recruiterMakeEmployee n s).isPartTime = decide (s < 50000) ∧
    (Factory.recruiterMakeEmployee n s).isContractor = !decide (s < 50000) ∧
    (Factory.hrManagerMakeEmployee n s).isFullTime = true ∧
    Factory.employee1.name = "John" ∧
    (Factory.calculate_bonus Factory.employee1).1 = 6000 ∧
    Factory.type_name Factory.employee1 = "FullTimeEmployee" ∧
    Factory.employee2.name = "Alice" ∧
    (Factory.calculate_bonus Factory.employee2).1 = 2000 ∧
    Factory.type_name Factory.employee2 = "PartTimeEmployee" ∧
    Factory.employee3.name = "Bob" ∧
    (Factory.calculate_bonus Factory.employee3).1 = 0 ∧
    Factory.type_name Factory.employee3 = "Contractor" := by
  refine ⟨?_, ?_, rfl, ?_, ?_, ?_, ?_, ?_, ?_, ?_, ?_, ?_⟩
  · by_cases hs : s < 50000 <;>
      simp [Factory.recruiterMakeEmployee, hs, Factory.Employee.isPartTime]
  · by_cases hs : s < 50000 <;>
      simp [Factory.recruiterMakeEmployee, hs, Factory.Employee.isContractor]
  all_goals
    norm_num [Factory.employee1, Factory.employee2, Factory.employee3,
      Factory.hrManagerMakeEmployee, Factory.recruiterMakeEmployee,
      Factory.calculate_bonus, Factory.type_name, Factory.Employee.name]

/-- C4: `calculate_bonus` returns 10 percent of the salary for a full-time
employee, 5 percent for a part-time employee and 0 for a contractor, and no
`calculate_bonus` call changes the employee's `name` or `salary`. -/
theorem calculate_bonus_values (n : String) (s : ℚ) (e : Factory.Employee) :
    (Factory.calculate_bonus (.fullTime n s)).1 = s * (1 / 10) ∧
    (Factory.calculate_bonus (.partTime n s)).1 = s * (5 / 100) ∧
    (Factory.calculate_bonus (.contractor n s)).1 = 0 ∧
    (Factory.calculate_bonus e).2.name = e.name ∧
    (Factory.calculate_bonus e).2.salary = e.salary := by
  refine ⟨rfl, rfl, rfl, ?_, ?_⟩ <;> cases e <;> rfl

/-- C5: for every beverage object, `MilkDecorator` adds 0.50 to the cost and
appends ", Milk" to the description, `MochaDecorator` adds 0.75 and appends
", Mocha", both computed from the unchanged wrapped beverage, and the
coffee-shop demo yields costs 1.99, 1.99 + 0.50 and 1.99 + 0.50 + 0.75. -/
theorem decorator_adds_cost (b : Decorator.BeverageObj) :
    (Decorator.milkDecorator b).cost = b.cost + 1 / 2 ∧
    (Decorator.milkDecorator b).description = b.description ++ ", Milk" ∧
    (Decorator.mochaDecorator b).cost = b.cost + 3 / 4 ∧
    (Decorator.mochaDecorator b).description = b.description ++ ", Mocha" ∧
    Decorator.espresso.cost = 199 / 100 ∧
    (Decorator.milkDecorator Decorator.espresso).cost = 199 / 100 + 1 / 2 ∧
    (Decorator.mochaDecorator (Decorator.milkDecorator Decorator.espresso)).cost
      = 199 / 100 + 1 / 2 + 3 / 4 :=
  ⟨rfl, rfl, rfl, rfl, rfl, rfl, rfl⟩

/-- C6: `show_details` on a file prints exactly its one `File:` line; on a
directory it prints the `Directory:` header followed by each child's output
in the order the children were added (depth-first pre-order); the demo prints
root, home, user, file1.txt, file2.txt, file3.txt in that order. -/
theorem show_details_preorder (n : String)
    (cs : List Composite.FileSystemComponent) :
    Composite.show_details (.file n) = ["File: " ++ n] ∧
    Composite.show_details (.dir n cs)
      = ("Directory: " ++ n) :: (cs.map Composite.show_details).flatten ∧
    Composite.show_details Composite.demoTree
      = ["Directory: root", "Directory: home", "Directory: user",
         "File: file1.txt", "File: file2.txt", "File: file3.txt"] := by
  refine ⟨show_details_file_eq n, show_details_dir_eq n cs, ?_⟩
  simp [Composite.demoTree, show_details_dir_eq, show_details_file_eq]

/-- C8: the two meal preparations of one `MealBuilder` return the same
`Product` object, and in the demo run (veg meal first, then non-veg) the veg
meal's parts read back as "Chicken Soup", "Grilled Chicken", "Chicken Tikka",
the non-veg parts. -/
theorem meal_builder_shared_product (h1 h2 : List Builder.Product)
    (m : Builder.MealBuilder) :
    (Builder.prepare_veg_meal h1 m).2 = (Builder.prepare_non_veg_meal h2 m).2 ∧
    Builder.builderDemo.2.1 = Builder.builderDemo.2.2 ∧
    objRead Builder.builderDemo.1 Builder.builderDemo.2.1 Builder.productInit
      = ⟨some "Chicken Soup", some "Grilled Chicken", some "Chicken Tikka"⟩ :=
  ⟨rfl, rfl, rfl⟩

/-- C9: a fresh `VideoProxy` for `f` has `_real_video = None`; over any
sequence of `play()` calls the loading line is printed at most once (exactly
once from the first call on), and from the first call on the stored
`RealVideo` is one whose filename equals `f`. -/
theorem video_proxy_lazy (f : String) (n : Nat) :
    (Proxy.proxyPlayN f 0).1.realVideo = none ∧
    ((Proxy.proxyPlayN f n).2).count (Proxy.loadLine f) = min n 1 ∧
    (Proxy.proxyPlayN f (n + 1)).1 = ⟨f, some ⟨f⟩⟩ :=
  ⟨rfl, proxyPlayN_count f n, proxyPlayN_state f n⟩

/-- C10: `Directory.remove` raises `ValueError` (error result, children
untouched) when the component is not among the children, and otherwise
removes exactly the first occurrence, leaving the remaining children in their
relative order (`List.erase`). -/
theorem directory_remove_cases (l : List Nat) (c : Nat) :
    Composite.listRemove l c
      = if c ∈ l then Except.ok (l.erase c) else Except.error () := by
  induction l with
  | nil => simp [Composite.listRemove]
  | cons x xs ih =>
    by_cases hx : x = c
    · subst hx
      simp [Composite.listRemove]
    · by_cases hc : c ∈ xs
      · simp [Composite.listRemove, hx, ih, hc, List.erase_cons_tail,
          Ne.symm hx, Except.map]
      · simp [Composite.listRemove, hx, ih, hc, Ne.symm hx, Except.map]

end DesignPatterns
